import Mathlib

/-!
Verification of the Trip Itinerary Planner backend.

Shallow embedding of the code under src/backend/app:
the weather service (services/weather_client.py), the trip router
(routers/trips.py) and the weather router (routers/weather.py).
External collaborators (the relational store, the HTTP providers)
are made explicit: the store is a value of type DB threaded through
each endpoint, and each external HTTP call outcome is a parameter
(none models a transport or parse failure, as the code swallows
every exception around those calls).

Numeric conventions: provider temperatures are rationals (JSON
decimal numbers), precipitation probabilities are integers, entity
ids and users are naturals, and calendar dates of trips are opaque
naturals (no claim depends on date arithmetic). Provider date strings
are parsed by a model of date.fromisoformat: the parse loop of
fetch_daily_forecast sits outside its try/except, so a malformed date
entry raises ValueError out of the whole call; fromisoformat returns
none to model that raise, fetch_daily_forecast_checked propagates it,
and forecastDay / fetch_daily_forecast give the content of the rows
emitted when every date entry parses (a row stores the date by its
provider string, which determines the parsed value).
-/

namespace TripPlanner

/-! Advice strings, verbatim from services/weather_client.py. -/

def goodAdvice : String := "Good weather – great day for walking and outdoor plans."

def rainAdvice : String := "Heavy rain expected – plan indoor activities or rideshares."

def cloudyAdvice : String := "Chance of showers – keep an umbrella handy and have a backup indoor option."

def heatAdvice : String := "Very hot – schedule outdoor activities early and stay hydrated."

def coldAdvice : String := "Cold weather – bring layers and keep walks shorter."

/-- Summary and advice derived from precipitation probability alone:
the initial assignment (Clear, good) followed by the prob ≥ 70 and
elif prob ≥ 40 branches of fetch_daily_forecast. -/
def baseSummaryAdvice (prob : Int) : String × String :=
  if prob ≥ 70 then ("Rainy", rainAdvice)
  else if prob ≥ 40 then ("Cloudy", cloudyAdvice)
  else ("Clear", goodAdvice)

/-- Per-day classification from the loop body of fetch_daily_forecast:
precipitation thresholds set summary and advice, then the hot check
(hi present and hi ≥ 32) overwrites the advice, then the cold check
(lo present and lo ≤ 35) overwrites it again. A missing array entry
is hi = none or lo = none, and the corresponding check is skipped. -/
def classify (prob : Int) (hi lo : Option ℚ) : String × String :=
  let sa := baseSummaryAdvice prob
  let advice1 :=
    match hi with
    | some h => if h ≥ 32 then heatAdvice else sa.2
    | none => sa.2
  let advice2 :=
    match lo with
    | some l => if l ≤ 35 then coldAdvice else advice1
    | none => advice1
  (sa.1, advice2)

/-- One output row of fetch_daily_forecast. -/
structure ForecastDay where
  date : String
  temp_max : ℚ
  temp_min : ℚ
  precip_prob : Int
  summary : String
  advice : String
deriving DecidableEq

/-- The body of the for loop in fetch_daily_forecast at index idx for a
date entry d that parses: precip idx when in range else 0, a missing
tmax or tmin entry is none, and the emitted row substitutes 0.0 for a
missing temperature. The date field keeps the provider string (the
program stores fromisoformat d, which the string determines); the
failing parse path, which aborts the whole call, is modelled by
fromisoformat and forecastRowsChecked below. -/
def forecastDay (precip : List Int) (tmax tmin : List ℚ) (idx : Nat) (d : String) : ForecastDay :=
  let prob : Int := (precip.get? idx).getD 0
  let hi : Option ℚ := tmax.get? idx
  let lo : Option ℚ := tmin.get? idx
  let sa := classify prob hi lo
  { date := d
    temp_max := hi.getD 0
    temp_min := lo.getD 0
    precip_prob := prob
    summary := sa.1
    advice := sa.2 }

/-- The enumerate loop of fetch_daily_forecast: one output row per
entry of the date list, indices starting at k. -/
def forecastRows (precip : List Int) (tmax tmin : List ℚ) : Nat → List String → List ForecastDay
  | _, [] => []
  | k, d :: ds => forecastDay precip tmax tmin k d :: forecastRows precip tmax tmin (k + 1) ds

/-- The daily object of a successfully parsed forecast response:
parallel arrays time, temperature_2m_max, temperature_2m_min and
precipitation_probability_max (each defaulting to [] when the key is
absent, as daily.get does). -/
structure DailyPayload where
  time : List String
  temperature_2m_max : List ℚ
  temperature_2m_min : List ℚ
  precipitation_probability_max : List Int
deriving DecidableEq

/-- Row content of fetch_daily_forecast after the HTTP call: none
models any transport or HTTP-status or JSON failure (the except branch
returns []); some p models a parsed daily payload. This is the row
list the program emits when every date entry of p parses; the raising
parse path is fetch_daily_forecast_checked below. -/
def fetch_daily_forecast (resp : Option DailyPayload) : List ForecastDay :=
  match resp with
  | none => []
  | some p =>
      forecastRows p.precipitation_probability_max p.temperature_2m_max
        p.temperature_2m_min 0 p.time

/-- Numeric value of a digit character. -/
def digitVal (c : Char) : Nat := c.toNat - 48

/-- Day count of a month in the Gregorian calendar, with leap years,
as date.fromisoformat validates it. -/
def daysInMonth (y m : Nat) : Nat :=
  if m = 2 then (if y % 4 = 0 ∧ (y % 100 ≠ 0 ∨ y % 400 = 0) then 29 else 28)
  else if m = 4 ∨ m = 6 ∨ m = 9 ∨ m = 11 then 30
  else 31

/-- Model of the Python date.fromisoformat call on the dash-separated
YYYY-MM-DD form the forecast provider emits: some (y, m, d) for a
well-formed calendar date with year at least 1, and none modelling the
ValueError raised on any other string. -/
def fromisoformat (s : String) : Option (Nat × Nat × Nat) :=
  match s.toList with
  | [y1, y2, y3, y4, s1, m1, m2, s2, d1, d2] =>
      if (y1.isDigit && y2.isDigit && y3.isDigit && y4.isDigit &&
          (s1 == '-') && m1.isDigit && m2.isDigit && (s2 == '-') &&
          d1.isDigit && d2.isDigit) = true then
        let y := ((digitVal y1 * 10 + digitVal y2) * 10 + digitVal y3) * 10 + digitVal y4
        let mo := digitVal m1 * 10 + digitVal m2
        let da := digitVal d1 * 10 + digitVal d2
        if 1 ≤ y ∧ 1 ≤ mo ∧ mo ≤ 12 ∧ 1 ≤ da ∧ da ≤ daysInMonth y mo then
          some (y, mo, da)
        else none
      else none
  | _ => none

/-- The enumerate loop with the date.fromisoformat call explicit: the
loop sits outside the try/except around the HTTP call, so a date entry
that does not parse raises ValueError and aborts the whole call (none);
otherwise one row per date entry is emitted. -/
def forecastRowsChecked (precip : List Int) (tmax tmin : List ℚ) :
    Nat → List String → Option (List ForecastDay)
  | _, [] => some []
  | k, d :: ds =>
      match fromisoformat d with
      | none => none
      | some _ =>
          (forecastRowsChecked precip tmax tmin (k + 1) ds).map
            (fun rest => forecastDay precip tmax tmin k d :: rest)

/-- fetch_daily_forecast with the raising date parse made explicit:
none models the uncaught ValueError escaping the function; the except
branch around the HTTP call still returns an empty list without
raising. -/
def fetch_daily_forecast_checked (resp : Option DailyPayload) : Option (List ForecastDay) :=
  match resp with
  | none => some []
  | some p =>
      forecastRowsChecked p.precipitation_probability_max p.temperature_2m_max
        p.temperature_2m_min 0 p.time

/-- One entry of the results array of the geocoding response. -/
structure GeoResult where
  latitude : ℚ
  longitude : ℚ
deriving DecidableEq

/-- geocode_city after the HTTP call: none models any transport or
HTTP-status or JSON failure (the except branch returns None); some rs
models a parsed body whose results field, after the `or []`
normalisation, is the list rs. The code returns None on an empty
list and the first result otherwise. -/
def geocode_city (resp : Option (List GeoResult)) : Option (ℚ × ℚ) :=
  match resp with
  | none => none
  | some [] => none
  | some (first :: _) => some (first.latitude, first.longitude)

/-! Data model for the trip router (models.Trip, models.TripMember,
models.BudgetEnvelope, models.Expense as the trip router uses them). -/

/-- Calendar dates are opaque: no claim depends on date arithmetic. -/
abbrev TripDate := Nat

structure Trip where
  id : Nat
  owner_id : Nat
  name : String
  destination : String
  start_date : TripDate
  end_date : TripDate
deriving DecidableEq

structure TripMember where
  id : Nat
  trip_id : Nat
  user_id : Nat
  role : String
deriving DecidableEq

structure BudgetEnvelope where
  id : Nat
  trip_id : Nat
  category : String
  planned_amount : ℚ
deriving DecidableEq

structure Expense where
  id : Nat
  trip_id : Nat
  envelope_id : Option Nat
  amount : ℚ
deriving DecidableEq

/-- The relational store as the trip and weather routers see it: the
trips and trip_members tables plus the two tables the PDF export
reads for its budget section, with the autoincrement counters that
assign ids on insert. -/
structure DB where
  trips : List Trip
  members : List TripMember
  envelopes : List BudgetEnvelope
  expenses : List Expense
  next_trip_id : Nat
  next_member_id : Nat
deriving DecidableEq

/-- Outcome of an endpoint: ok payload, or an HTTPException with a
status code and detail string. -/
inductive Result (α : Type) where
  | ok : α → Result α
  | err : Nat → String → Result α
deriving DecidableEq

/-- db.query(Trip).filter(Trip.id == trip_id).first() -/
def findTrip (db : DB) (trip_id : Nat) : Option Trip :=
  db.trips.find? (fun t => t.id == trip_id)

/-- The trip.members relationship: members rows keyed by the trip id. -/
def trip_members (db : DB) (trip : Trip) : List TripMember :=
  db.members.filter (fun m => m.trip_id == trip.id)

/-- The condition of _ensure_member_or_owner in routers/trips.py:
owner or any membership row for this user. -/
def ensure_member_or_owner (db : DB) (trip : Trip) (user_id : Nat) : Bool :=
  (trip.owner_id == user_id) || (trip_members db trip).any (fun m => m.user_id == user_id)

/-- The condition of _ensure_owner in routers/trips.py. -/
def ensure_owner (trip : Trip) (user_id : Nat) : Bool :=
  trip.owner_id == user_id

/-- Body of POST /trips: TripCreate with the optional owner_id field
the handler excludes. -/
structure TripCreate where
  owner_id : Option Nat
  name : String
  destination : String
  start_date : TripDate
  end_date : TripDate
deriving DecidableEq

/-- Body of PATCH /trips, model_dump(exclude_unset=True): none means
the field was not provided. -/
structure TripUpdate where
  name : Option String
  destination : Option String
  start_date : Option TripDate
  end_date : Option TripDate
deriving DecidableEq

/-- Body of POST /trips/:id/members. -/
structure TripMemberUpsert where
  user_id : Nat
  role : String
deriving DecidableEq

/-- create_trip: owner_id comes from the current user (the payload
owner_id is excluded), the remaining body fields are copied verbatim,
and the store assigns the next trip id. Returns the new store and the
created row. -/
def create_trip (db : DB) (payload : TripCreate) (current_user : Nat) : DB × Trip :=
  let trip : Trip :=
    { id := db.next_trip_id
      owner_id := current_user
      name := payload.name
      destination := payload.destination
      start_date := payload.start_date
      end_date := payload.end_date }
  ({ db with trips := db.trips ++ [trip], next_trip_id := db.next_trip_id + 1 }, trip)

/-- GET /trips/:id — 404 when absent, then read gated by
_ensure_member_or_owner. -/
def get_trip (db : DB) (trip_id current_user : Nat) : Result Trip :=
  match findTrip db trip_id with
  | none => .err 404 "Trip not found"
  | some trip =>
      if ensure_member_or_owner db trip current_user then .ok trip
      else .err 403 "Not authorized for this trip"

/-- setattr loop of update_trip: provided fields overwrite, absent
fields keep their stored value. -/
def apply_update (t : Trip) (p : TripUpdate) : Trip :=
  { t with
    name := p.name.getD t.name
    destination := p.destination.getD t.destination
    start_date := p.start_date.getD t.start_date
    end_date := p.end_date.getD t.end_date }

/-- PATCH /trips/:id — owner gated partial update. -/
def update_trip (db : DB) (trip_id : Nat) (payload : TripUpdate) (current_user : Nat) :
    DB × Result Trip :=
  match findTrip db trip_id with
  | none => (db, .err 404 "Trip not found")
  | some trip =>
      if ensure_owner trip current_user then
        let t2 := apply_update trip payload
        ({ db with trips := db.trips.map (fun t => if t.id == trip_id then apply_update t payload else t) },
         .ok t2)
      else (db, .err 403 "Only owner can perform this action")

/-- DELETE /trips/:id — owner gated; db.delete removes the loaded row. -/
def delete_trip (db : DB) (trip_id current_user : Nat) : DB × Result Unit :=
  match findTrip db trip_id with
  | none => (db, .err 404 "Trip not found")
  | some trip =>
      if ensure_owner trip current_user then
        ({ db with trips := db.trips.eraseP (fun t => t.id == trip_id) }, .ok ())
      else (db, .err 403 "Only owner can perform this action")

/-- GET /trips/:id/members — read gated, returns trip.members. -/
def list_trip_members (db : DB) (trip_id current_user : Nat) : Result (List TripMember) :=
  match findTrip db trip_id with
  | none => .err 404 "Trip not found"
  | some trip =>
      if ensure_member_or_owner db trip current_user then .ok (trip_members db trip)
      else .err 403 "Not authorized for this trip"

/-- member.role = payload.role on the first row matching the
(trip, user) pair, every other row untouched. -/
def updateFirstRole (t u : Nat) (r : String) : List TripMember → List TripMember
  | [] => []
  | m :: ms =>
      if m.trip_id == t && m.user_id == u then { m with role := r } :: ms
      else m :: updateFirstRole t u r ms

/-- POST /trips/:id/members — owner gated upsert: when a row with the
(trip, user) pair exists its role is updated in place, otherwise a
new row is inserted with the next member id. -/
def add_or_update_member (db : DB) (trip_id : Nat) (payload : TripMemberUpsert)
    (current_user : Nat) : DB × Result TripMember :=
  match findTrip db trip_id with
  | none => (db, .err 404 "Trip not found")
  | some trip =>
      if ensure_owner trip current_user then
        match db.members.find? (fun m => m.trip_id == trip_id && m.user_id == payload.user_id) with
        | some m =>
            ({ db with members := updateFirstRole trip_id payload.user_id payload.role db.members },
             .ok { m with role := payload.role })
        | none =>
            let m2 : TripMember :=
              { id := db.next_member_id
                trip_id := trip_id
                user_id := payload.user_id
                role := payload.role }
            ({ db with members := db.members ++ [m2], next_member_id := db.next_member_id + 1 },
             .ok m2)
      else (db, .err 403 "Only owner can perform this action")

/-- DELETE /trips/:id/members/:user_id — owner gated; 404 when no row
matches the (trip, user) pair, otherwise that row is deleted. -/
def delete_member (db : DB) (trip_id user_id current_user : Nat) : DB × Result Unit :=
  match findTrip db trip_id with
  | none => (db, .err 404 "Trip not found")
  | some trip =>
      if ensure_owner trip current_user then
        match db.members.find? (fun m => m.trip_id == trip_id && m.user_id == user_id) with
        | none => (db, .err 404 "Member not found")
        | some _ =>
            ({ db with members := db.members.eraseP (fun m => m.trip_id == trip_id && m.user_id == user_id) },
             .ok ())
      else (db, .err 403 "Only owner can perform this action")

/-- sum(exp.amount for exp in expenses if exp.envelope_id == env.id),
as the export route computes the actual amount of one envelope; a
row with envelope_id None never matches an id. -/
def budgetActual (envId : Nat) (expenses : List Expense) : ℚ :=
  List.foldl (fun acc e => if e.envelope_id == some envId then acc + e.amount else acc) 0 expenses

/-- One rendered line of the budget section. -/
structure BudgetLine where
  category : String
  planned : ℚ
  actual : ℚ
deriving DecidableEq

/-- The budget section of the export: one line per envelope, planned
against the in-memory sum of its linked expenses. -/
def budget_lines (envelopes : List BudgetEnvelope) (expenses : List Expense) : List BudgetLine :=
  envelopes.map (fun env =>
    { category := env.category
      planned := env.planned_amount
      actual := budgetActual env.id expenses })

/-- GET /trips/:id/export/pdf — read gated; the value content of the
budget section is the lines computed from the envelopes and expenses
of this trip (both queries filter on trip_id). Layout is cosmetic and
not modelled. -/
def export_trip_pdf (db : DB) (trip_id current_user : Nat) : Result (List BudgetLine) :=
  match findTrip db trip_id with
  | none => .err 404 "Trip not found"
  | some trip =>
      if ensure_member_or_owner db trip current_user then
        .ok (budget_lines (db.envelopes.filter (fun e => e.trip_id == trip_id))
              (db.expenses.filter (fun e => e.trip_id == trip_id)))
      else .err 403 "Not authorized for this trip"

/-! The weather router (routers/weather.py). -/

/-- The role lookup of _user_role_for_trip: owner beats membership,
otherwise the role string of the first membership row for this user,
none when there is no row. -/
def user_role_for_trip (db : DB) (trip : Trip) (user_id : Nat) : Option String :=
  if trip.owner_id == user_id then some "owner"
  else ((trip_members db trip).find? (fun m => m.user_id == user_id)).map (fun m => m.role)

/-- The gate of _require_view_access: `if not role` in Python is true
both for None and for the empty role string, so view access holds
only for a present, non-empty role. -/
def require_view_access (db : DB) (trip : Trip) (user_id : Nat) : Bool :=
  match user_role_for_trip db trip user_id with
  | none => false
  | some r => !(r == "")

/-- Response of the weather route. -/
structure TripWeatherResponse where
  city : String
  start_date : TripDate
  end_date : TripDate
  days : List ForecastDay
deriving DecidableEq

/-- GET /trips/:id/weather — 404 when the trip is absent, 403 through
_require_view_access, 404 when geocoding yields no coordinates, and
otherwise the classified forecast for the trip dates. The outcomes of
the two external calls are the geo and forecast parameters. -/
def trip_weather (db : DB) (trip_id current_user : Nat)
    (geo : Option (List GeoResult)) (forecast : Option DailyPayload) :
    Result TripWeatherResponse :=
  match findTrip db trip_id with
  | none => .err 404 "Trip not found"
  | some trip =>
      if require_view_access db trip current_user then
        match geocode_city geo with
        | none => .err 404 "Could not find location for this trip\u0027s destination"
        | some _ =>
            .ok { city := trip.destination
                  start_date := trip.start_date
                  end_date := trip.end_date
                  days := fetch_daily_forecast forecast }
      else .err 403 "Not authorized for this trip"

/-! Helper lemmas about the forecast parsing loop. -/

theorem forecastRows_length (pr : List Int) (tx tn : List ℚ) (k : Nat) (ds : List String) :
    (forecastRows pr tx tn k ds).length = ds.length := by
  induction ds generalizing k with
  | nil => rfl
  | cons d ds ih => simp [forecastRows, ih]

theorem forecastRows_get? (pr : List Int) (tx tn : List ℚ) (k i : Nat) (ds : List String) :
    (forecastRows pr tx tn k ds).get? i
      = (ds.get? i).map (fun d => forecastDay pr tx tn (k + i) d) := by
  induction ds generalizing k i with
  | nil => simp [forecastRows]
  | cons d ds ih =>
    cases i with
    | zero => rfl
    | succ i =>
      have harith : k + 1 + i = k + (i + 1) := by omega
      show (forecastRows pr tx tn (k + 1) ds).get? i = _
      rw [ih (k + 1) i, harith]
      rfl

/-- The advice of a day with both temperatures present, as a chain of
the two overwrite conditions over the precipitation-derived advice. -/
theorem classify_some_some_advice (prob : Int) (hi lo : ℚ) :
    (classify prob (some hi) (some lo)).2
      = if lo ≤ 35 then coldAdvice
        else if hi ≥ 32 then heatAdvice
        else (baseSummaryAdvice prob).2 := by
  by_cases hlo : lo ≤ 35 <;> by_cases hhi : hi ≥ 32 <;>
    simp [classify, hlo, hhi]

/-- The precipitation-derived advice is never the cold caution. -/
theorem baseAdvice_ne_cold (prob : Int) : (baseSummaryAdvice prob).2 ≠ coldAdvice := by
  simp only [baseSummaryAdvice]
  split_ifs <;> decide

/-- The precipitation-derived advice is never the heat caution. -/
theorem baseAdvice_ne_heat (prob : Int) : (baseSummaryAdvice prob).2 ≠ heatAdvice := by
  simp only [baseSummaryAdvice]
  split_ifs <;> decide

/-- With no min temperature entry the cold overwrite is skipped, so the
advice is never the cold caution. -/
theorem classify_lo_none_ne_cold (prob : Int) (hi : Option ℚ) :
    (classify prob hi none).2 ≠ coldAdvice := by
  rcases hi with _ | h
  · exact baseAdvice_ne_cold prob
  · show (if h ≥ 32 then heatAdvice else (baseSummaryAdvice prob).2) ≠ coldAdvice
    split_ifs
    · decide
    · exact baseAdvice_ne_cold prob

/-- With no max temperature entry the heat overwrite is skipped, so the
advice is never the heat caution. -/
theorem classify_hi_none_ne_heat (prob : Int) (lo : Option ℚ) :
    (classify prob none lo).2 ≠ heatAdvice := by
  rcases lo with _ | l
  · exact baseAdvice_ne_heat prob
  · show (if l ≤ 35 then coldAdvice else (baseSummaryAdvice prob).2) ≠ heatAdvice
    split_ifs
    · decide
    · exact baseAdvice_ne_heat prob

/-- With both temperature entries missing, classification is exactly
the precipitation-derived pair. -/
theorem classify_none_none (prob : Int) :
    classify prob none none = baseSummaryAdvice prob := rfl

/-- C2: the day classification evaluates precipitation thresholds first
(≥ 70 Rainy, else ≥ 40 Cloudy, else Clear), then overwrites only the
advice with the heat caution when max ≥ 32, then overwrites the advice
with the cold caution when min ≤ 35; the summary depends only on the
precipitation probability, and on input (prob 50, max 20, min 2) the
result is the Cloudy summary with the cold caution advice. -/
theorem C2_classify_priority (prob : Int) (hi lo : ℚ) :
    (classify prob (some hi) (some lo)).1
        = (if prob ≥ 70 then "Rainy" else if prob ≥ 40 then "Cloudy" else "Clear") ∧
    (lo ≤ 35 → (classify prob (some hi) (some lo)).2 = coldAdvice) ∧
    (¬ lo ≤ 35 → hi ≥ 32 → (classify prob (some hi) (some lo)).2 = heatAdvice) ∧
    (¬ lo ≤ 35 → ¬ hi ≥ 32 →
        (classify prob (some hi) (some lo)).2
          = (if prob ≥ 70 then rainAdvice else if prob ≥ 40 then cloudyAdvice else goodAdvice)) ∧
    classify 50 (some 20) (some 2) = ("Cloudy", coldAdvice) := by
  refine ⟨?_, fun hlo => ?_, fun hlo hhi => ?_, fun hlo hhi => ?_, by decide⟩
  · show (baseSummaryAdvice prob).1 = _
    simp only [baseSummaryAdvice]
    split_ifs <;> rfl
  · rw [classify_some_some_advice, if_pos hlo]
  · rw [classify_some_some_advice, if_neg hlo, if_pos hhi]
  · rw [classify_some_some_advice, if_neg hlo, if_neg hhi]
    simp only [baseSummaryAdvice]
    split_ifs <;> rfl

/-- Witness for C2 at the concrete input of the claim. -/
theorem C2_classify_priority_witness :
    ((2 : ℚ) ≤ 35) ∧ (classify 50 (some 20) (some 2)).2 = coldAdvice :=
  ⟨by norm_num, (C2_classify_priority 50 20 2).2.1 (by norm_num)⟩

/-- C3 fails on the code: at (prob 80, max 20, min 10) the advice is not
the heavy-rain text, and at (prob 10, max 35, min 10) the advice is not
the heat-caution text, because min 10 ≤ 35 makes the cold-caution
overwrite fire last in both cases. -/
theorem C3_examples_counterexample :
    (classify 80 (some 20) (some 10)).2 ≠ rainAdvice ∧
    (classify 10 (some 35) (some 10)).2 ≠ heatAdvice :=
  ⟨by decide, by decide⟩

/-- C3 (amended): (prob 80, max 20, min 10) yields the Rainy summary
with the cold-caution advice, and (prob 10, max 35, min 10) yields the
Clear summary with the cold-caution advice, since the literal min ≤ 35
threshold overwrites the advice last in both cases. -/
theorem C3_examples_amended :
    classify 80 (some 20) (some 10) = ("Rainy", coldAdvice) ∧
    classify 10 (some 35) (some 10) = ("Clear", coldAdvice) :=
  ⟨by decide, by decide⟩

/-- Row content of the parse loop: one row per date entry, and a day
whose index is beyond the end of a measurement array gets
precipitation probability 0 and temperature 0.0. -/
theorem forecast_ragged_defaults (p : DailyPayload) :
    (fetch_daily_forecast (some p)).length = p.time.length ∧
    (∀ idx day, (fetch_daily_forecast (some p)).get? idx = some day →
      (p.precipitation_probability_max.length ≤ idx → day.precip_prob = 0) ∧
      (p.temperature_2m_max.length ≤ idx → day.temp_max = 0) ∧
      (p.temperature_2m_min.length ≤ idx → day.temp_min = 0)) := by
  constructor
  · simp [fetch_daily_forecast, forecastRows_length]
  · intro idx day h
    simp only [fetch_daily_forecast, forecastRows_get?, Nat.zero_add,
      Option.map_eq_some'] at h
    obtain ⟨d, hd, rfl⟩ := h
    refine ⟨fun hlen => ?_, fun hlen => ?_, fun hlen => ?_⟩
    · have hn : p.precipitation_probability_max.get? idx = none := List.get?_eq_none.mpr hlen
      simp only [forecastDay, hn, Option.getD_none]
    · have hn : p.temperature_2m_max.get? idx = none := List.get?_eq_none.mpr hlen
      simp only [forecastDay, hn, Option.getD_none]
    · have hn : p.temperature_2m_min.get? idx = none := List.get?_eq_none.mpr hlen
      simp only [forecastDay, hn, Option.getD_none]

/-- The ragged payload of the claim example: three dates, two
precipitation entries, two max temperatures, one min temperature. -/
def raggedPayload : DailyPayload :=
  { time := ["2024-06-01", "2024-06-02", "2024-06-03"]
    temperature_2m_max := [31, 30]
    temperature_2m_min := [20]
    precipitation_probability_max := [10, 20] }

/-- The third parsed day of the ragged payload. -/
def raggedThirdDay : ForecastDay := forecastDay [10, 20] [31, 30] [20] 2 "2024-06-03"

/-- When every date entry parses, the checked loop does not abort and
emits exactly the rows of the content loop. -/
theorem forecastRowsChecked_of_valid (pr : List Int) (tx tn : List ℚ) (ds : List String) :
    ∀ k, (∀ d ∈ ds, (fromisoformat d).isSome) →
      forecastRowsChecked pr tx tn k ds = some (forecastRows pr tx tn k ds) := by
  induction ds with
  | nil =>
    intro k h
    rfl
  | cons d ds ih =>
    intro k h
    have hd := h d (List.mem_cons_self d ds)
    rcases hfd : fromisoformat d with _ | pd
    · rw [hfd] at hd
      simp at hd
    · have hrest := ih (k + 1) (fun x hx => h x (List.mem_cons_of_mem d hx))
      simp only [forecastRowsChecked, forecastRows, hfd, hrest, Option.map_some']

/-- C4 fails as stated: this response has a date array of length 3 and
a precipitation array of length 2 (ragged exactly as the claim
demands), yet the program raises ValueError at the second date entry,
because the parse loop sits outside the try/except; the call produces
no row list at all, let alone one entry per date. -/
theorem C4_ragged_parse_counterexample :
    (["2024-06-01", "bogus", "x"] : List String).length
        > ([10, 20] : List Int).length ∧
    fromisoformat "bogus" = none ∧
    fetch_daily_forecast_checked
        (some { time := ["2024-06-01", "bogus", "x"]
                temperature_2m_max := []
                temperature_2m_min := []
                precipitation_probability_max := [10, 20] })
      = none :=
  ⟨by decide, by decide, by decide⟩

/-- C4 (amended): for every forecast response whose date entries are
all well-formed ISO dates, parsing never raises: the call returns
exactly one output row per date entry, and any day beyond the end of a
measurement array gets precipitation probability 0 and temperature 0.0
instead of failing. A malformed date entry, by contrast, raises out of
the call, since the parse loop sits outside the try/except. -/
theorem C4_ragged_parse_amended (p : DailyPayload)
    (hvalid : ∀ d ∈ p.time, (fromisoformat d).isSome) :
    fetch_daily_forecast_checked (some p) = some (fetch_daily_forecast (some p)) ∧
    (fetch_daily_forecast (some p)).length = p.time.length ∧
    (∀ idx day, (fetch_daily_forecast (some p)).get? idx = some day →
      (p.precipitation_probability_max.length ≤ idx → day.precip_prob = 0) ∧
      (p.temperature_2m_max.length ≤ idx → day.temp_max = 0) ∧
      (p.temperature_2m_min.length ≤ idx → day.temp_min = 0)) := by
  refine ⟨?_, (forecast_ragged_defaults p).1, (forecast_ragged_defaults p).2⟩
  simp only [fetch_daily_forecast_checked, fetch_daily_forecast]
  exact forecastRowsChecked_of_valid _ _ _ _ 0 hvalid

/-- Witness for the amended C4 at the ragged example payload, whose
three date entries all parse. -/
theorem C4_ragged_parse_amended_witness :
    (∀ d ∈ raggedPayload.time, (fromisoformat d).isSome) ∧
    fetch_daily_forecast_checked (some raggedPayload)
      = some (fetch_daily_forecast (some raggedPayload)) ∧
    (fetch_daily_forecast (some raggedPayload)).length = 3 ∧
    raggedThirdDay.precip_prob = 0 ∧
    raggedThirdDay.temp_max = 0 ∧
    raggedThirdDay.temp_min = 0 :=
  ⟨by decide,
   (C4_ragged_parse_amended raggedPayload (by decide)).1,
   (C4_ragged_parse_amended raggedPayload (by decide)).2.1,
   ((C4_ragged_parse_amended raggedPayload (by decide)).2.2 2 raggedThirdDay
      (by decide)).1 (by decide),
   ((C4_ragged_parse_amended raggedPayload (by decide)).2.2 2 raggedThirdDay
      (by decide)).2.1 (by decide),
   ((C4_ragged_parse_amended raggedPayload (by decide)).2.2 2 raggedThirdDay
      (by decide)).2.2 (by decide)⟩

/-- C10: for a day whose max or min temperature entry is missing from a
ragged response, the corresponding advice overwrite is skipped: a day
with no min entry never carries the cold advice even though its
reported temp_min is the substituted 0.0 (which satisfies min ≤ 35), a
day with no max entry never carries the heat advice, and a day missing
both keeps exactly the precipitation-derived summary and advice. -/
theorem C10_missing_temp_skips_override (p : DailyPayload) (idx : Nat) (day : ForecastDay)
    (h : (fetch_daily_forecast (some p)).get? idx = some day) :
    (p.temperature_2m_min.length ≤ idx →
        day.advice ≠ coldAdvice ∧ day.temp_min = 0 ∧ day.temp_min ≤ 35) ∧
    (p.temperature_2m_max.length ≤ idx →
        day.advice ≠ heatAdvice ∧ day.temp_max = 0) ∧
    (p.temperature_2m_max.length ≤ idx → p.temperature_2m_min.length ≤ idx →
        (day.summary, day.advice) = baseSummaryAdvice day.precip_prob) := by
  simp only [fetch_daily_forecast, forecastRows_get?, Nat.zero_add,
    Option.map_eq_some'] at h
  obtain ⟨d, hd, rfl⟩ := h
  refine ⟨fun hlen => ?_, fun hlen => ?_, fun hlen hlen2 => ?_⟩
  · have hn : p.temperature_2m_min.get? idx = none := List.get?_eq_none.mpr hlen
    refine ⟨?_, ?_, ?_⟩
    · simp only [forecastDay, hn]
      exact classify_lo_none_ne_cold _ _
    · simp only [forecastDay, hn, Option.getD_none]
    · simp only [forecastDay, hn, Option.getD_none]
      norm_num
  · have hn : p.temperature_2m_max.get? idx = none := List.get?_eq_none.mpr hlen
    constructor
    · simp only [forecastDay, hn]
      exact classify_hi_none_ne_heat _ _
    · simp only [forecastDay, hn, Option.getD_none]
  · have hn : p.temperature_2m_max.get? idx = none := List.get?_eq_none.mpr hlen
    have hn2 : p.temperature_2m_min.get? idx = none := List.get?_eq_none.mpr hlen2
    simp only [forecastDay, hn, hn2, classify_none_none, Prod.mk.eta]

/-- Witness for C10 at the ragged example payload. -/
theorem C10_missing_temp_skips_override_witness :
    (fetch_daily_forecast (some raggedPayload)).get? 2 = some raggedThirdDay ∧
    raggedThirdDay.advice ≠ coldAdvice ∧
    raggedThirdDay.temp_min = 0 :=
  ⟨by decide,
   (((C10_missing_temp_skips_override raggedPayload 2 raggedThirdDay (by decide)).1) (by decide)).1,
   (((C10_missing_temp_skips_override raggedPayload 2 raggedThirdDay (by decide)).1) (by decide)).2.1⟩

/-! Concrete sample state used by the witnesses. -/

/-- A trip owned by user 10. -/
def sampleTrip : Trip :=
  { id := 1, owner_id := 10, name := "Summer", destination := "Paris",
    start_date := 100, end_date := 105 }

/-- User 20 is a member of trip 1 with a non-empty role. -/
def sampleMember : TripMember :=
  { id := 1, trip_id := 1, user_id := 20, role := "viewer" }

/-- A store with one trip and one membership row. -/
def sampleDB : DB :=
  { trips := [sampleTrip], members := [sampleMember], envelopes := [], expenses := [],
    next_trip_id := 2, next_member_id := 2 }

/-- C5: geocoding collapses a transport or parse failure and an empty
result set to no coordinates, and when geocoding yields no coordinates
the weather endpoint answers 404 for every authorized caller; every
error the endpoint can return carries status 403 or 404, never a 500. -/
theorem C5_geocode_absent_404 (db : DB) (trip_id u : Nat) (trip : Trip)
    (geo : Option (List GeoResult)) (fc : Option DailyPayload)
    (h : findTrip db trip_id = some trip)
    (hauth : require_view_access db trip u = true) :
    geocode_city none = none ∧
    geocode_city (some []) = none ∧
    (geocode_city geo = none →
        trip_weather db trip_id u geo fc
          = Result.err 404 "Could not find location for this trip\u0027s destination") ∧
    (∀ s d, trip_weather db trip_id u geo fc = Result.err s d → s = 403 ∨ s = 404) := by
  refine ⟨rfl, rfl, fun hg => ?_, fun s d hr => ?_⟩
  · simp only [trip_weather, h, hauth, if_true, hg]
  · simp only [trip_weather, h, hauth, if_true] at hr
    rcases hg : geocode_city geo with _ | c
    · rw [hg] at hr
      simp only [Result.err.injEq] at hr
      right
      exact hr.1.symm
    · rw [hg] at hr
      exact absurd hr (by simp)

/-- Witness for C5: the owner of the sample trip with a failed geocode
call receives the 404 answer. -/
theorem C5_geocode_absent_404_witness :
    findTrip sampleDB 1 = some sampleTrip ∧
    require_view_access sampleDB sampleTrip 10 = true ∧
    trip_weather sampleDB 1 10 none none
      = Result.err 404 "Could not find location for this trip\u0027s destination" :=
  ⟨rfl, rfl, (C5_geocode_absent_404 sampleDB 1 10 sampleTrip none none rfl rfl).2.2.1 rfl⟩

/-- C7: when the owner removes a member and no membership row matches
the (trip, user) pair, the endpoint answers 404 Member not found and
the store, membership roster included, is unchanged. -/
theorem C7_delete_absent_member (db : DB) (trip_id uid u : Nat) (trip : Trip)
    (h : findTrip db trip_id = some trip)
    (howner : ensure_owner trip u = true)
    (habsent : db.members.find? (fun m => m.trip_id == trip_id && m.user_id == uid) = none) :
    delete_member db trip_id uid u = (db, Result.err 404 "Member not found") := by
  simp only [delete_member, h, howner, if_true, habsent]

/-- Witness for C7: removing absent user 99 from the sample trip. -/
theorem C7_delete_absent_member_witness :
    findTrip sampleDB 1 = some sampleTrip ∧
    ensure_owner sampleTrip 10 = true ∧
    sampleDB.members.find? (fun m => m.trip_id == 1 && m.user_id == 99) = none ∧
    delete_member sampleDB 1 99 10 = (sampleDB, Result.err 404 "Member not found") :=
  ⟨rfl, rfl, rfl, C7_delete_absent_member sampleDB 1 99 10 sampleTrip rfl rfl rfl⟩

/-- find? over an appended list skips a prefix with no match. -/
theorem find?_append_of_none {α : Type} (p : α → Bool) (l₁ l₂ : List α)
    (h : l₁.find? p = none) : (l₁ ++ l₂).find? p = l₂.find? p := by
  induction l₁ with
  | nil => rfl
  | cons a l ih =>
    cases hp : p a with
    | true =>
      rw [List.find?_cons_of_pos _ hp] at h
      exact absurd h (by simp)
    | false =>
      have hp2 : ¬ p a = true := by simp [hp]
      rw [List.find?_cons_of_neg _ hp2] at h
      rw [List.cons_append, List.find?_cons_of_neg _ hp2]
      exact ih h

/-- C9: creating a trip stores the caller as owner (a supplied payload
owner_id is ignored) and copies the body fields verbatim, and an
immediate read of the assigned id by the creator returns exactly the
stored row, provided the assigned id is fresh. -/
theorem C9_create_read_roundtrip (db : DB) (payload : TripCreate) (u : Nat)
    (hfresh : ∀ t ∈ db.trips, t.id ≠ db.next_trip_id) :
    get_trip (create_trip db payload u).1 ((create_trip db payload u).2).id u
      = Result.ok (create_trip db payload u).2 ∧
    ((create_trip db payload u).2).owner_id = u ∧
    ((create_trip db payload u).2).name = payload.name ∧
    ((create_trip db payload u).2).destination = payload.destination ∧
    ((create_trip db payload u).2).start_date = payload.start_date ∧
    ((create_trip db payload u).2).end_date = payload.end_date := by
  have hnone : db.trips.find? (fun t => t.id == db.next_trip_id) = none := by
    rw [List.find?_eq_none]
    intro t ht
    simpa using hfresh t ht
  refine ⟨?_, rfl, rfl, rfl, rfl, rfl⟩
  simp only [create_trip, get_trip, findTrip]
  rw [find?_append_of_none _ _ _ hnone]
  simp [ensure_member_or_owner]

/-- Witness for C9: creating in an empty store, with the payload even
carrying a bogus owner_id 99 that is ignored. -/
theorem C9_create_read_roundtrip_witness :
    (∀ t ∈ (∅ : List Trip), t.id ≠ 1) ∧
    get_trip
        (create_trip
          { trips := [], members := [], envelopes := [], expenses := [],
            next_trip_id := 1, next_member_id := 1 }
          { owner_id := some 99, name := "Summer", destination := "Paris",
            start_date := 100, end_date := 105 } 10).1
        ((create_trip
          { trips := [], members := [], envelopes := [], expenses := [],
            next_trip_id := 1, next_member_id := 1 }
          { owner_id := some 99, name := "Summer", destination := "Paris",
            start_date := 100, end_date := 105 } 10).2).id 10
      = Result.ok
        ((create_trip
          { trips := [], members := [], envelopes := [], expenses := [],
            next_trip_id := 1, next_member_id := 1 }
          { owner_id := some 99, name := "Summer", destination := "Paris",
            start_date := 100, end_date := 105 } 10).2) ∧
    ((create_trip
          { trips := [], members := [], envelopes := [], expenses := [],
            next_trip_id := 1, next_member_id := 1 }
          { owner_id := some 99, name := "Summer", destination := "Paris",
            start_date := 100, end_date := 105 } 10).2).owner_id = 10 := by
  refine ⟨by simp, ?_, ?_⟩
  · exact (C9_create_read_roundtrip _ _ 10 (by simp)).1
  · exact (C9_create_read_roundtrip _ _ 10 (by simp)).2.1

/-! Helper lemmas about the in-place role update. -/

/-- The role update keeps every id, trip and user column unchanged. -/
theorem updateFirstRole_key_map (t u : Nat) (r : String) (ms : List TripMember) :
    (updateFirstRole t u r ms).map (fun m => (m.id, m.trip_id, m.user_id))
      = ms.map (fun m => (m.id, m.trip_id, m.user_id)) := by
  induction ms with
  | nil => rfl
  | cons m ms ih =>
    by_cases hp : (m.trip_id == t && m.user_id == u) = true <;>
      simp [updateFirstRole, hp, ih]

/-- The role update inserts and removes nothing. -/
theorem updateFirstRole_length (t u : Nat) (r : String) (ms : List TripMember) :
    (updateFirstRole t u r ms).length = ms.length := by
  have h := congrArg List.length (updateFirstRole_key_map t u r ms)
  simpa using h

/-- The role update keeps the member count of every trip unchanged. -/
theorem updateFirstRole_member_count (t u : Nat) (r : String) (ms : List TripMember) (tid : Nat) :
    ((updateFirstRole t u r ms).filter (fun m => m.trip_id == tid)).length
      = (ms.filter (fun m => m.trip_id == tid)).length := by
  induction ms with
  | nil => rfl
  | cons m ms ih =>
    by_cases hp : (m.trip_id == t && m.user_id == u) = true <;>
      by_cases ht : (m.trip_id == tid) = true <;>
      simp [updateFirstRole, List.filter_cons, hp, ht, ih]

/-- After the role update, the first row matching the pair is the old
row with the new role. -/
theorem updateFirstRole_find? (t u : Nat) (r : String) (ms : List TripMember) (m0 : TripMember)
    (h : ms.find? (fun m => m.trip_id == t && m.user_id == u) = some m0) :
    (updateFirstRole t u r ms).find? (fun m => m.trip_id == t && m.user_id == u)
      = some { m0 with role := r } := by
  induction ms with
  | nil => simp at h
  | cons m ms ih =>
    cases hp : (m.trip_id == t && m.user_id == u) with
    | true =>
      rw [List.find?_cons, hp] at h
      have h2 : some m = some m0 := h
      injection h2 with h2
      subst h2
      rw [updateFirstRole, if_pos hp, List.find?_cons]
      have hp2 : (({ m with role := r } : TripMember).trip_id == t
          && ({ m with role := r } : TripMember).user_id == u) = true := hp
      rw [hp2]
    | false =>
      rw [List.find?_cons, hp] at h
      rw [updateFirstRole, if_neg (by simp [hp]), List.find?_cons, hp]
      exact ih h

/-- C6: when the owner upserts a member whose (trip, user) pair already
has a row, that row gets the new role in place: every id, trip and user
column is unchanged, no row is inserted or removed, the member count of
the trip is unchanged, and the endpoint returns the row with the new
role; when no row matches the pair, exactly one new row with the given
role is appended. -/
theorem C6_member_upsert (db : DB) (trip_id u : Nat) (trip : Trip) (payload : TripMemberUpsert)
    (h : findTrip db trip_id = some trip)
    (howner : ensure_owner trip u = true) :
    (∀ m0, db.members.find? (fun m => m.trip_id == trip_id && m.user_id == payload.user_id)
          = some m0 →
        ((add_or_update_member db trip_id payload u).1.members.map
            (fun m => (m.id, m.trip_id, m.user_id))
          = db.members.map (fun m => (m.id, m.trip_id, m.user_id))) ∧
        (add_or_update_member db trip_id payload u).1.members.length = db.members.length ∧
        (((add_or_update_member db trip_id payload u).1.members.filter
            (fun m => m.trip_id == trip_id)).length
          = (db.members.filter (fun m => m.trip_id == trip_id)).length) ∧
        ((add_or_update_member db trip_id payload u).1.members.find?
            (fun m => m.trip_id == trip_id && m.user_id == payload.user_id)
          = some { m0 with role := payload.role }) ∧
        (add_or_update_member db trip_id payload u).2
          = Result.ok { m0 with role := payload.role }) ∧
    (db.members.find? (fun m => m.trip_id == trip_id && m.user_id == payload.user_id) = none →
        (add_or_update_member db trip_id payload u).1.members
          = db.members ++ [{ id := db.next_member_id, trip_id := trip_id,
                             user_id := payload.user_id, role := payload.role }]) := by
  constructor
  · intro m0 hm
    simp only [add_or_update_member, h, howner, if_true, hm]
    exact ⟨updateFirstRole_key_map _ _ _ _, updateFirstRole_length _ _ _ _,
      updateFirstRole_member_count _ _ _ _ _, updateFirstRole_find? _ _ _ _ _ hm, trivial⟩
  · intro hm
    simp only [add_or_update_member, h, howner, if_true, hm]

/-- Witness for C6: the owner re-adds member 20 of the sample trip with
a new role; the member count of trip 1 is unchanged. -/
theorem C6_member_upsert_witness :
    findTrip sampleDB 1 = some sampleTrip ∧
    ensure_owner sampleTrip 10 = true ∧
    sampleDB.members.find? (fun m => m.trip_id == 1 && m.user_id == 20) = some sampleMember ∧
    (((add_or_update_member sampleDB 1 { user_id := 20, role := "editor" } 10).1.members.filter
        (fun m => m.trip_id == 1)).length
      = (sampleDB.members.filter (fun m => m.trip_id == 1)).length) :=
  ⟨rfl, rfl, rfl,
   (((C6_member_upsert sampleDB 1 10 sampleTrip { user_id := 20, role := "editor" }
      rfl rfl).1 sampleMember rfl).2.2.1)⟩

/-! Helper lemmas about the budget rollup. -/

/-- Stated from the wording of the spec, for comparison with the
computation of the code: the sum of the amounts of exactly those
expenses whose envelope reference equals the envelope id. -/
def specBudgetActual (envId : Nat) (expenses : List Expense) : ℚ :=
  ((expenses.filter (fun e => e.envelope_id == some envId)).map Expense.amount).sum

theorem budgetActual_foldl (envId : Nat) (l : List Expense) (c : ℚ) :
    List.foldl (fun acc e => if e.envelope_id == some envId then acc + e.amount else acc) c l
      = c + specBudgetActual envId l := by
  induction l generalizing c with
  | nil => simp [specBudgetActual]
  | cons e l ih =>
    rw [List.foldl_cons, ih]
    by_cases hp : (e.envelope_id == some envId) = true
    · rw [if_pos hp]
      simp only [specBudgetActual, List.filter_cons, hp, if_true, List.map_cons, List.sum_cons]
      ring
    · have hb : (e.envelope_id == some envId) = false := by simpa using hp
      rw [if_neg hp]
      simp [specBudgetActual, List.filter_cons, hb]

theorem budgetActual_eq_spec (envId : Nat) (l : List Expense) :
    budgetActual envId l = specBudgetActual envId l := by
  have h := budgetActual_foldl envId l 0
  simpa [budgetActual] using h

/-- C8: the actual amount the export reports for an envelope is the sum
of the amounts of exactly those expenses whose envelope reference
equals the envelope id; an expense linked to a different envelope or to
none contributes nothing, wherever it sits in the list; and every
successful export carries, for each envelope of the trip, exactly this
sum as the actual amount. -/
theorem C8_budget_actual :
    (∀ envId expenses, budgetActual envId expenses = specBudgetActual envId expenses) ∧
    (∀ envId (e : Expense), ¬ e.envelope_id = some envId →
      ∀ pre post, budgetActual envId (pre ++ e :: post) = budgetActual envId (pre ++ post)) ∧
    (∀ db trip_id u lines, export_trip_pdf db trip_id u = Result.ok lines →
      lines = (db.envelopes.filter (fun e => e.trip_id == trip_id)).map (fun env =>
        { category := env.category
          planned := env.planned_amount
          actual := specBudgetActual env.id
            (db.expenses.filter (fun e => e.trip_id == trip_id)) })) := by
  refine ⟨budgetActual_eq_spec, fun envId e he pre post => ?_, fun db trip_id u lines hl => ?_⟩
  · have hb : (e.envelope_id == some envId) = false := by simpa using he
    simp [budgetActual_eq_spec, specBudgetActual, List.filter_append, List.filter_cons, hb]
  · rcases hf : findTrip db trip_id with _ | trip
    · simp only [export_trip_pdf, hf] at hl
      exact absurd hl (by simp)
    · simp only [export_trip_pdf, hf] at hl
      by_cases ha : ensure_member_or_owner db trip u = true
      · rw [if_pos ha] at hl
        injection hl with h2
        rw [← h2]
        simp only [budget_lines]
        refine List.map_congr_left (fun env _ => ?_)
        rw [budgetActual_eq_spec]
      · rw [if_neg ha] at hl
        exact absurd hl (by simp)

/-- A store exercising the budget rollup: one envelope, one matching
expense, one expense on another envelope, one unlinked expense. -/
def budgetDB : DB :=
  { trips := [sampleTrip]
    members := []
    envelopes := [{ id := 5, trip_id := 1, category := "Food", planned_amount := 100 }]
    expenses := [{ id := 1, trip_id := 1, envelope_id := some 5, amount := 10 },
                 { id := 2, trip_id := 1, envelope_id := some 6, amount := 20 },
                 { id := 3, trip_id := 1, envelope_id := none, amount := 30 }]
    next_trip_id := 2
    next_member_id := 1 }

/-- Witness for C8: the export of the budget store reports actual 10
for the envelope, ignoring the expense on envelope 6 and the unlinked
expense. -/
theorem C8_budget_actual_witness :
    export_trip_pdf budgetDB 1 10
      = Result.ok [{ category := "Food", planned := 100, actual := 10 }] ∧
    budgetActual 5 budgetDB.expenses = specBudgetActual 5 budgetDB.expenses ∧
    specBudgetActual 5 budgetDB.expenses = 10 :=
  ⟨by
    simp only [export_trip_pdf, findTrip, budgetDB, sampleTrip]
    norm_num [ensure_member_or_owner, trip_members, budget_lines, budgetActual,
      List.find?, List.filter, List.foldl],
   (C8_budget_actual).1 5 budgetDB.expenses,
   by norm_num [specBudgetActual, budgetDB, List.filter, List.map, List.sum_cons]⟩

/-! Access control (C1). -/

/-- A store reached through the API: user 10 creates a trip, then
upserts user 20 as a member with the empty role string. -/
def cxDB : DB :=
  (add_or_update_member
    (create_trip
      { trips := [], members := [], envelopes := [], expenses := [],
        next_trip_id := 1, next_member_id := 1 }
      { owner_id := none, name := "T", destination := "Paris",
        start_date := 0, end_date := 1 } 10).1
    1 { user_id := 20, role := "" } 10).1

/-- C1 fails as stated on the weather read: in cxDB user 20 appears in
the membership list of trip 1 (so the read-access side of the claim is
met, and the trip read indeed succeeds), yet the weather read answers
403, because the weather router treats the empty role string like no
role at all. -/
theorem C1_access_control_counterexample :
    (∃ trip, findTrip cxDB 1 = some trip ∧ ensure_member_or_owner cxDB trip 20 = true) ∧
    (∃ t, get_trip cxDB 1 20 = Result.ok t) ∧
    trip_weather cxDB 1 20 (some [{ latitude := 48, longitude := 2 }]) none
      = Result.err 403 "Not authorized for this trip" := by
  refine ⟨⟨{ id := 1, owner_id := 10, name := "T", destination := "Paris",
             start_date := 0, end_date := 1 }, by decide, by decide⟩,
          ⟨{ id := 1, owner_id := 10, name := "T", destination := "Paris",
             start_date := 0, end_date := 1 }, by decide⟩,
          by decide⟩

/-- C1 (amended): for an existing trip, a read through the trip router
(get trip, list members, PDF export) answers 403 exactly when the
caller is neither the owner nor in the membership list, and succeeds
when the caller is owner or member; the weather read answers 403
exactly when the caller has no present, non-empty role (so a member
whose role is the empty string is refused there); a write (partial
update, delete, member upsert, member removal) answers 403 exactly
when the caller is not the owner, and an update by the owner succeeds
with the patched row. -/
theorem C1_access_control (db : DB) (trip_id u : Nat) (trip : Trip)
    (geo : Option (List GeoResult)) (fc : Option DailyPayload)
    (p : TripUpdate) (mu : TripMemberUpsert) (mid : Nat)
    (h : findTrip db trip_id = some trip) :
    (get_trip db trip_id u = Result.err 403 "Not authorized for this trip"
        ↔ ensure_member_or_owner db trip u = false) ∧
    (ensure_member_or_owner db trip u = true → get_trip db trip_id u = Result.ok trip) ∧
    (list_trip_members db trip_id u = Result.err 403 "Not authorized for this trip"
        ↔ ensure_member_or_owner db trip u = false) ∧
    (ensure_member_or_owner db trip u = true →
        list_trip_members db trip_id u = Result.ok (trip_members db trip)) ∧
    (export_trip_pdf db trip_id u = Result.err 403 "Not authorized for this trip"
        ↔ ensure_member_or_owner db trip u = false) ∧
    (trip_weather db trip_id u geo fc = Result.err 403 "Not authorized for this trip"
        ↔ require_view_access db trip u = false) ∧
    ((update_trip db trip_id p u).2 = Result.err 403 "Only owner can perform this action"
        ↔ ensure_owner trip u = false) ∧
    (ensure_owner trip u = true →
        (update_trip db trip_id p u).2 = Result.ok (apply_update trip p)) ∧
    ((delete_trip db trip_id u).2 = Result.err 403 "Only owner can perform this action"
        ↔ ensure_owner trip u = false) ∧
    ((add_or_update_member db trip_id mu u).2 = Result.err 403 "Only owner can perform this action"
        ↔ ensure_owner trip u = false) ∧
    ((delete_member db trip_id mid u).2 = Result.err 403 "Only owner can perform this action"
        ↔ ensure_owner trip u = false) := by
  refine ⟨?_, ?_, ?_, ?_, ?_, ?_, ?_, ?_, ?_, ?_, ?_⟩
  · cases hb : ensure_member_or_owner db trip u with
    | true => simp [get_trip, h, hb]
    | false => simp [get_trip, h, hb]
  · intro hb
    simp [get_trip, h, hb]
  · cases hb : ensure_member_or_owner db trip u with
    | true => simp [list_trip_members, h, hb]
    | false => simp [list_trip_members, h, hb]
  · intro hb
    simp [list_trip_members, h, hb]
  · cases hb : ensure_member_or_owner db trip u with
    | true => simp [export_trip_pdf, h, hb]
    | false => simp [export_trip_pdf, h, hb]
  · cases hb : require_view_access db trip u with
    | true =>
      rcases hg : geocode_city geo with _ | c
      · simp [trip_weather, h, hb, hg]
      · simp [trip_weather, h, hb, hg]
    | false => simp [trip_weather, h, hb]
  · cases hb : ensure_owner trip u with
    | true => simp [update_trip, h, hb]
    | false => simp [update_trip, h, hb]
  · intro hb
    simp [update_trip, h, hb]
  · cases hb : ensure_owner trip u with
    | true => simp [delete_trip, h, hb]
    | false => simp [delete_trip, h, hb]
  · cases hb : ensure_owner trip u with
    | true =>
      rcases hm : db.members.find? (fun m => m.trip_id == trip_id && m.user_id == mu.user_id)
        with _ | m0
      · simp [add_or_update_member, h, hb, hm]
      · simp [add_or_update_member, h, hb, hm]
    | false => simp [add_or_update_member, h, hb]
  · cases hb : ensure_owner trip u with
    | true =>
      rcases hm : db.members.find? (fun m => m.trip_id == trip_id && m.user_id == mid)
        with _ | m0
      · simp [delete_member, h, hb, hm]
      · simp [delete_member, h, hb, hm]
    | false => simp [delete_member, h, hb]

/-- Witness for the amended C1 at the sample store: member 20 can read
the trip but is refused a write. -/
theorem C1_access_control_witness :
    findTrip sampleDB 1 = some sampleTrip ∧
    (ensure_member_or_owner sampleDB sampleTrip 20 = true →
        get_trip sampleDB 1 20 = Result.ok sampleTrip) ∧
    ((update_trip sampleDB 1
          { name := none, destination := none, start_date := none, end_date := none } 20).2
        = Result.err 403 "Only owner can perform this action"
      ↔ ensure_owner sampleTrip 20 = false) := by
  have H := C1_access_control sampleDB 1 20 sampleTrip none none
    { name := none, destination := none, start_date := none, end_date := none }
    { user_id := 7, role := "x" } 7 rfl
  exact ⟨rfl, H.2.1, H.2.2.2.2.2.2.1⟩

end TripPlanner
